import Mathlib

/-!
Verification of the allocation/rebalancing computation engine of the
Investimentos portfolio tracker (src/investimentos.py).

The engine operates on a snapshot of portfolio holdings.  Each holding row
carries `asset_name`, an optional `asset_class`, a `target_percent` and a
`current_value` (columns of the `portfolio` table).  Monetary values and
percentages are modelled as exact rationals (the Python code computes with
floats; the formulas themselves are field arithmetic, so ℚ captures them).

Embedded functions, each translated line by line from the source:
  * `calcular_alocacao`        (investimentos.py lines 274-284)
  * `sugerir_rebalance`        (investimentos.py lines 286-295)
  * `simulate_rebalance_assets`(investimentos.py lines 526-531)
  * `simulacao_por_classe`     (the per-class block of `simulacao_page`,
                                investimentos.py lines 502-519)
-/

/-- One row of the `portfolio` table, as consumed by the calculation
functions.  `asset_class` is nullable in the schema, hence `Option`. -/
structure Holding where
  asset_name : String
  asset_class : Option String
  target_percent : ℚ
  current_value : ℚ
deriving DecidableEq, Repr

/-- `df_port["current_value"].sum()` — the total current portfolio value. -/
def totalValue (hs : List Holding) : ℚ :=
  (hs.map (·.current_value)).sum

/-- Output row of `calcular_alocacao`: the input row plus the added
`aloc_atual_pct` column. -/
structure AllocRow where
  base : Holding
  aloc_atual_pct : ℚ
deriving DecidableEq, Repr

/-- `calcular_alocacao(df_port)` (investimentos.py lines 274-284):
`total = df_port["current_value"].sum()`, then
`aloc_atual_pct = (x / total * 100) if total > 0 else 0` per row. -/
def calcular_alocacao (hs : List Holding) : List AllocRow :=
  let total := totalValue hs
  hs.map (fun h =>
    ⟨h, if total > 0 then h.current_value / total * 100 else 0⟩)

/-- Output row of `sugerir_rebalance`: the input row plus the added
`valor_alvo` and `diff` columns. -/
structure RebRow where
  base : Holding
  valor_alvo : ℚ
  diff : ℚ
deriving DecidableEq, Repr

/-- `sugerir_rebalance(df_port)` (investimentos.py lines 286-295):
`total = sum(current_value)`; `valor_alvo = target_percent / 100 * total`;
`diff = valor_alvo - current_value`. -/
def sugerir_rebalance (hs : List Holding) : List RebRow :=
  let total := totalValue hs
  hs.map (fun h =>
    ⟨h, h.target_percent / 100 * total,
        h.target_percent / 100 * total - h.current_value⟩)

/-- Output row of `simulate_rebalance_assets`: the input row plus the added
`ideal_value` and `aporte_ideal` columns. -/
structure SimRow where
  base : Holding
  ideal_value : ℚ
  aporte_ideal : ℚ
deriving DecidableEq, Repr

/-- `simulate_rebalance_assets(portfolio_df, extra_amount)`
(investimentos.py lines 526-531):
`total_current = portfolio_df["current_value"].sum()`;
`total_new = total_current + extra_amount`;
`ideal_value = target_percent / 100 * total_new`;
`aporte_ideal = ideal_value - current_value`;
returns `(portfolio_df, total_current, total_new)`. -/
def simulate_rebalance_assets (hs : List Holding) (extra_amount : ℚ) :
    List SimRow × ℚ × ℚ :=
  let total_current := totalValue hs
  let total_new := total_current + extra_amount
  (hs.map (fun h =>
    ⟨h, h.target_percent / 100 * total_new,
        h.target_percent / 100 * total_new - h.current_value⟩),
   total_current, total_new)

/-- One row of the `asset_classes` table as created by investimentos.py:
`class_name` and a fixed monetary `target_value` (REAL, default 0.0). -/
structure AssetClass where
  class_name : String
  target_value : ℚ
deriving DecidableEq, Repr

/-- `df_port.groupby("asset_class")["current_value"].sum()` evaluated at the
group key `c`, i.e. the summed `current_value` of the holdings whose
`asset_class` equals `c`.  Pandas `groupby` drops null keys, so only rows
with `asset_class = some c` contribute. -/
def classTotal (hs : List Holding) (c : String) : ℚ :=
  ((hs.filter (fun h => h.asset_class = some c)).map (·.current_value)).sum

/-- Output row of the per-class simulation block. -/
structure ClassRow where
  class_name : String
  current_value : ℚ
  target_value : ℚ
  aporte_ideal : ℚ
deriving DecidableEq, Repr

/-- The per-class block of `simulacao_page` (investimentos.py lines 502-519):
`df_port_group = df_port.groupby("asset_class")["current_value"].sum()`;
`df_merge = pd.merge(df_class, df_port_group, how="left",
                     left_on="class_name", right_on="asset_class")`;
`df_merge["current_value"] = df_merge["current_value"].fillna(0)`;
`df_merge["aporte_ideal"] = df_merge["target_value"] - df_merge["current_value"]`.
The left join keeps exactly one row per `asset_classes` row; a class with no
matching holdings gets `current_value = 0` via `fillna`. -/
def simulacao_por_classe (hs : List Holding) (cs : List AssetClass) :
    List ClassRow :=
  cs.map (fun c =>
    ⟨c.class_name, classTotal hs c.class_name, c.target_value,
     c.target_value - classTotal hs c.class_name⟩)

-- Sanity checks against the spec's concrete scenarios 2 and 3.
example :
    (calcular_alocacao
      [⟨"A", none, 70, 300⟩, ⟨"B", none, 30, 700⟩]).map (·.aloc_atual_pct)
      = [30, 70] := by
  norm_num [calcular_alocacao, totalValue]

example :
    ((simulate_rebalance_assets
      [⟨"A", none, 70, 300⟩, ⟨"B", none, 30, 700⟩] 1000).1).map (·.aporte_ideal)
      = [1100, -100] := by
  norm_num [simulate_rebalance_assets, totalValue]

example :
    (sugerir_rebalance
      [⟨"A", none, 70, 300⟩, ⟨"B", none, 30, 700⟩]).map (·.diff)
      = [400, -400] := by
  norm_num [sugerir_rebalance, totalValue]

/-! ## Helper lemmas about list sums -/

/-- Summing `x / t * c` over a list equals the list's sum divided by `t`
times `c`. -/
theorem sum_map_div_mul (l : List ℚ) (t c : ℚ) :
    (l.map (fun x => x / t * c)).sum = l.sum / t * c := by
  induction l with
  | nil => simp
  | cons a l ih => simp [ih]; ring

/-- Summing a pointwise difference equals the difference of the sums. -/
theorem sum_map_sub_eq {α : Type} (l : List α) (f g : α → ℚ) :
    (l.map (fun x => f x - g x)).sum = (l.map f).sum - (l.map g).sum := by
  induction l with
  | nil => simp
  | cons a l ih => simp [ih]; ring

/-- Summing `p x / 100 * t` over a list equals the sum of `p` divided by 100
times `t`. -/
theorem sum_map_percent_mul {α : Type} (l : List α) (p : α → ℚ) (t : ℚ) :
    (l.map (fun x => p x / 100 * t)).sum = (l.map p).sum / 100 * t := by
  induction l with
  | nil => simp
  | cons a l ih => simp [ih]; ring

/-- The base holding of every output row of `calcular_alocacao` is the input
row, in order: the function only adds a column. -/
theorem calcular_alocacao_base (hs : List Holding) :
    (calcular_alocacao hs).map (·.base) = hs := by
  simp only [calcular_alocacao, List.map_map]
  exact List.map_id hs

/-- If no holding belongs to class `c`, the grouped total for `c` is zero. -/
theorem classTotal_eq_zero_of_not_mem (hs : List Holding) (c : String)
    (h : ∀ x ∈ hs, x.asset_class ≠ some c) :
    classTotal hs c = 0 := by
  unfold classTotal
  have : hs.filter (fun x => x.asset_class = some c) = [] := by
    apply List.filter_eq_nil_iff.mpr
    intro x hx
    simpa using h x hx
  simp [this]

/-! ## Claim theorems -/

/-- C1: Per-asset cash-injection rebalance.  For every snapshot and every
extra contribution amount ≥ 0, `simulate_rebalance_assets` returns
`total_current` equal to the sum of `current_value` over all holdings,
`total_new = total_current + extra`, one output row per input holding in
order, and for each row `ideal_value = target_percent / 100 * total_new`
and `aporte_ideal = ideal_value - current_value`. -/
theorem C1_simulate_rebalance_assets_formulas (hs : List Holding)
    (extra : ℚ) (_hextra : 0 ≤ extra) :
    (simulate_rebalance_assets hs extra).2.1 = totalValue hs ∧
    (simulate_rebalance_assets hs extra).2.2 = totalValue hs + extra ∧
    ((simulate_rebalance_assets hs extra).1).map (·.base) = hs ∧
    ∀ r ∈ (simulate_rebalance_assets hs extra).1,
      r.ideal_value = r.base.target_percent / 100 * (totalValue hs + extra) ∧
      r.aporte_ideal = r.ideal_value - r.base.current_value := by
  refine ⟨rfl, rfl, ?_, ?_⟩
  · simp only [simulate_rebalance_assets, List.map_map]
    exact List.map_id hs
  · intro r hr
    simp only [simulate_rebalance_assets, List.mem_map] at hr
    obtain ⟨h, _, rfl⟩ := hr
    exact ⟨rfl, rfl⟩

/-- Witness for C1 at the spec's concrete scenario 3. -/
theorem C1_simulate_rebalance_assets_formulas_witness :
    (0:ℚ) ≤ 1000 ∧
    (simulate_rebalance_assets
      [⟨"A", none, 70, 300⟩, ⟨"B", none, 30, 700⟩] 1000).2.2
      = totalValue [⟨"A", none, 70, 300⟩, ⟨"B", none, 30, 700⟩] + 1000 :=
  ⟨by norm_num,
   (C1_simulate_rebalance_assets_formulas
      [⟨"A", none, 70, 300⟩, ⟨"B", none, 30, 700⟩] 1000 (by norm_num)).2.1⟩

/-- C2: Allocation percentage.  `calcular_alocacao` keeps every holding (in
order) and assigns `aloc_atual_pct = current_value / total * 100` when the
total is strictly positive, and `0` when the total is zero; being a total
function, it never raises a division error. -/
theorem C2_calcular_alocacao_formulas (hs : List Holding) :
    (calcular_alocacao hs).map (·.base) = hs ∧
    ∀ r ∈ calcular_alocacao hs,
      (0 < totalValue hs →
        r.aloc_atual_pct = r.base.current_value / totalValue hs * 100) ∧
      (totalValue hs = 0 → r.aloc_atual_pct = 0) := by
  refine ⟨calcular_alocacao_base hs, ?_⟩
  intro r hr
  simp only [calcular_alocacao, List.mem_map] at hr
  obtain ⟨h, _, rfl⟩ := hr
  constructor
  · intro ht
    simp [ht]
  · intro ht
    simp [ht]

/-- Witness for C2 on a one-holding snapshot of value 500. -/
theorem C2_calcular_alocacao_formulas_witness :
    0 < totalValue [⟨"A", none, 50, 500⟩] ∧
    (⟨⟨"A", none, 50, 500⟩, 100⟩ : AllocRow).aloc_atual_pct
      = (⟨⟨"A", none, 50, 500⟩, 100⟩ : AllocRow).base.current_value
          / totalValue [⟨"A", none, 50, 500⟩] * 100 :=
  ⟨by norm_num [totalValue],
   ((C2_calcular_alocacao_formulas [⟨"A", none, 50, 500⟩]).2
      ⟨⟨"A", none, 50, 500⟩, 100⟩
      (by norm_num [calcular_alocacao, totalValue])).1
     (by norm_num [totalValue])⟩

/-- C6: Zero-contribution degeneracy.  `simulate_rebalance_assets` with
extra contribution 0 produces exactly the `diff` values of
`sugerir_rebalance` on the same snapshot. -/
theorem C6_zero_contribution_degeneracy (hs : List Holding) :
    ((simulate_rebalance_assets hs 0).1).map (·.aporte_ideal)
      = (sugerir_rebalance hs).map (·.diff) := by
  simp [simulate_rebalance_assets, sugerir_rebalance]

/-- C7: Total invariance.  The `aloc_atual_pct` values assigned by
`calcular_alocacao` sum to exactly 100 whenever the total current value is
strictly positive (exact rational arithmetic, so no tolerance is needed),
and every holding gets 0 when the total is 0. -/
theorem C7_total_invariance (hs : List Holding) :
    (0 < totalValue hs →
      ((calcular_alocacao hs).map (·.aloc_atual_pct)).sum = 100) ∧
    (totalValue hs = 0 →
      ∀ r ∈ calcular_alocacao hs, r.aloc_atual_pct = 0) := by
  constructor
  · intro ht
    have hmap : (calcular_alocacao hs).map (·.aloc_atual_pct)
        = (hs.map (·.current_value)).map (fun x => x / totalValue hs * 100) := by
      simp only [calcular_alocacao, List.map_map]
      refine List.map_congr_left ?_
      intro h _
      simp [ht]
    rw [hmap, sum_map_div_mul]
    rw [show (hs.map (·.current_value)).sum = totalValue hs from rfl]
    rw [div_self (ne_of_gt ht)]
    ring
  · intro ht r hr
    simp only [calcular_alocacao, List.mem_map] at hr
    obtain ⟨h, _, rfl⟩ := hr
    simp [ht]

/-- Witness for C7 at the spec's concrete scenario 1. -/
theorem C7_total_invariance_witness :
    ((calcular_alocacao [⟨"A", none, 50, 500⟩, ⟨"B", none, 50, 500⟩]).map
        (·.aloc_atual_pct)).sum = 100 :=
  (C7_total_invariance [⟨"A", none, 50, 500⟩, ⟨"B", none, 50, 500⟩]).1
    (by norm_num [totalValue])

/-- C3 counterexample: on the spec's failing input — a holding with
`current_value = -10` — the calculation functions raise nothing and return
fully computed rows (for `calcular_alocacao` the total is -10, not > 0, so
the percentage branch yields 0; `sugerir_rebalance` and
`simulate_rebalance_assets` happily compute with the negative value).  No
`ValidationError` (or any error path) exists in the code. -/
theorem C3_counterexample :
    calcular_alocacao [⟨"A", none, 50, -10⟩]
      = [⟨⟨"A", none, 50, -10⟩, 0⟩] ∧
    (sugerir_rebalance [⟨"A", none, 50, -10⟩]).map (·.diff) = [5] ∧
    ((simulate_rebalance_assets [⟨"A", none, 50, -10⟩] 0).1).map
        (·.aporte_ideal) = [5] := by
  refine ⟨?_, ?_, ?_⟩ <;>
    norm_num [calcular_alocacao, sugerir_rebalance, simulate_rebalance_assets,
      totalValue]

/-- C3 amended: the calculation functions perform no input validation — even
when the input contains a holding with negative `current_value` or negative
`target_percent`, each function returns a normally computed result with one
output row per input holding (no error is raised and no row is dropped). -/
theorem C3_no_validation_total (hs : List Holding)
    (_hneg : ∃ x ∈ hs, x.current_value < 0 ∨ x.target_percent < 0) :
    (calcular_alocacao hs).map (·.base) = hs ∧
    (sugerir_rebalance hs).map (·.base) = hs ∧
    ∀ e : ℚ, ((simulate_rebalance_assets hs e).1).map (·.base) = hs := by
  refine ⟨calcular_alocacao_base hs, ?_, ?_⟩
  · simp only [sugerir_rebalance, List.map_map]
    exact List.map_id hs
  · intro e
    simp only [simulate_rebalance_assets, List.map_map]
    exact List.map_id hs

/-- Witness for the amended C3 at the spec's failing input. -/
theorem C3_no_validation_total_witness :
    (calcular_alocacao [⟨"A", none, 50, -10⟩]).map (·.base)
      = [⟨"A", none, 50, -10⟩] :=
  (C3_no_validation_total [⟨"A", none, 50, -10⟩]
    ⟨⟨"A", none, 50, -10⟩, by simp, Or.inl (by norm_num)⟩).1

/-- C4 counterexample: one holding of value 1000 in class "X", one
`asset_classes` row ("X", stored target number 50), extra contribution 1000.
The claimed percent-of-total formula gives
`50 / 100 * (1000 + 1000) - 1000 = 0`, but the code computes
`target_value - class_current = 50 - 1000 = -950`: the per-class block uses
the stored `target_value` directly and ignores the contribution. -/
theorem C4_counterexample :
    ((simulacao_por_classe [⟨"A", some "X", 0, 1000⟩] [⟨"X", 50⟩]).map
        (·.aporte_ideal) = [-950]) ∧
    ¬ ((simulacao_por_classe [⟨"A", some "X", 0, 1000⟩] [⟨"X", 50⟩]).map
        (·.aporte_ideal)
      = [50 / 100 * (totalValue [⟨"A", some "X", 0, 1000⟩] + 1000)
          - classTotal [⟨"A", some "X", 0, 1000⟩] "X"]) := by
  constructor <;>
    norm_num [simulacao_por_classe, classTotal, totalValue]

/-- C4 amended: the per-class planner implements the fixed-value class-target
variant, not the percent-of-total one: it emits one row per `asset_classes`
record (in order), each carrying `current_value` equal to the summed
`current_value` of the holdings of that class (0 when none) and
`aporte_ideal = stored target_value - current_value`; the extra contribution
amount does not enter the per-class computation. -/
theorem C4_per_class_fixed_target (hs : List Holding) (cs : List AssetClass) :
    (simulacao_por_classe hs cs).map (·.class_name) = cs.map (·.class_name) ∧
    (∀ c ∈ cs,
      (⟨c.class_name, classTotal hs c.class_name, c.target_value,
        c.target_value - classTotal hs c.class_name⟩ : ClassRow)
        ∈ simulacao_por_classe hs cs) ∧
    ∀ r ∈ simulacao_por_classe hs cs,
      r.current_value = classTotal hs r.class_name ∧
      r.aporte_ideal = r.target_value - r.current_value := by
  refine ⟨?_, ?_, ?_⟩
  · simp only [simulacao_por_classe, List.map_map]
    rfl
  · intro c hc
    simp only [simulacao_por_classe, List.mem_map]
    exact ⟨c, hc, rfl⟩
  · intro r hr
    simp only [simulacao_por_classe, List.mem_map] at hr
    obtain ⟨c, _, rfl⟩ := hr
    exact ⟨rfl, rfl⟩

/-- Witness for the amended C4 at the counterexample snapshot. -/
theorem C4_per_class_fixed_target_witness :
    ((simulacao_por_classe [⟨"A", some "X", 0, 1000⟩] [⟨"X", 50⟩]).map
        (·.class_name) = ["X"]) ∧
    (⟨"X", classTotal [⟨"A", some "X", 0, 1000⟩] "X", 50,
        50 - classTotal [⟨"A", some "X", 0, 1000⟩] "X"⟩ : ClassRow)
      ∈ simulacao_por_classe [⟨"A", some "X", 0, 1000⟩] [⟨"X", 50⟩] :=
  ⟨(C4_per_class_fixed_target [⟨"A", some "X", 0, 1000⟩] [⟨"X", 50⟩]).1,
   (C4_per_class_fixed_target [⟨"A", some "X", 0, 1000⟩] [⟨"X", 50⟩]).2.1
     ⟨"X", 50⟩ (by simp)⟩

/-- C5 counterexample: a holding in class "X" but `asset_classes` containing
only "Y".  The class-grouped output names exactly the defined classes — the
observed class "X" does not surface (the merge is a left join on the
AssetClass side, so undefined holding classes are dropped, contrary to the
claim). -/
theorem C5_counterexample :
    ((simulacao_por_classe [⟨"A", some "X", 0, 100⟩] [⟨"Y", 50⟩]).map
        (·.class_name) = ["Y"]) ∧
    "X" ∉ (simulacao_por_classe [⟨"A", some "X", 0, 100⟩] [⟨"Y", 50⟩]).map
        (·.class_name) := by
  constructor
  · rfl
  · simp [simulacao_por_classe]

/-- C5 amended: the class-grouped output contains exactly one row per
defined `asset_classes` record, in order (so defined classes with no
matching holdings do appear, with `current_value = 0`); but a holding whose
`asset_class` matches no AssetClass record is dropped from the output, and a
`None` class is not normalized to an "unclassified" group — the join
fills zeros only on the AssetClass side. -/
theorem C5_class_aggregation (hs : List Holding) (cs : List AssetClass) :
    (simulacao_por_classe hs cs).map (·.class_name) = cs.map (·.class_name) ∧
    ∀ r ∈ simulacao_por_classe hs cs,
      (∀ x ∈ hs, x.asset_class ≠ some r.class_name) → r.current_value = 0 := by
  refine ⟨?_, ?_⟩
  · simp only [simulacao_por_classe, List.map_map]
    rfl
  · intro r hr hnone
    simp only [simulacao_por_classe, List.mem_map] at hr
    obtain ⟨c, _, rfl⟩ := hr
    exact classTotal_eq_zero_of_not_mem hs c.class_name hnone

/-- Witness for the amended C5: class "Y" has no holdings, so its grouped
`current_value` is 0. -/
theorem C5_class_aggregation_witness :
    ((simulacao_por_classe [⟨"A", some "X", 0, 100⟩] [⟨"Y", 50⟩]).map
        (·.class_name) = ["Y"]) ∧
    (⟨"Y", classTotal [⟨"A", some "X", 0, 100⟩] "Y", 50,
        50 - classTotal [⟨"A", some "X", 0, 100⟩] "Y"⟩ : ClassRow).current_value
      = 0 :=
  ⟨(C5_class_aggregation [⟨"A", some "X", 0, 100⟩] [⟨"Y", 50⟩]).1,
   (C5_class_aggregation [⟨"A", some "X", 0, 100⟩] [⟨"Y", 50⟩]).2
     ⟨"Y", classTotal [⟨"A", some "X", 0, 100⟩] "Y", 50,
        50 - classTotal [⟨"A", some "X", 0, 100⟩] "Y"⟩
     (by simp [simulacao_por_classe]) (by simp)⟩

/-- C8: Monotonicity in contribution.  For the same snapshot and two extra
contribution amounts `e1 < e2`, any pair of output rows of
`simulate_rebalance_assets` built from the same holding has strictly larger
`ideal_value` and `aporte_ideal` under `e2` when the holding's
`target_percent` is strictly positive, and exactly equal values when the
`target_percent` is 0. -/
theorem C8_monotonicity (hs : List Holding) (e1 e2 : ℚ) (h12 : e1 < e2) :
    ∀ r1 ∈ (simulate_rebalance_assets hs e1).1,
    ∀ r2 ∈ (simulate_rebalance_assets hs e2).1,
      r1.base = r2.base →
      (0 < r1.base.target_percent →
        r1.ideal_value < r2.ideal_value ∧
        r1.aporte_ideal < r2.aporte_ideal) ∧
      (r1.base.target_percent = 0 →
        r1.ideal_value = r2.ideal_value ∧
        r1.aporte_ideal = r2.aporte_ideal) := by
  intro r1 hr1 r2 hr2 hbase
  simp only [simulate_rebalance_assets, List.mem_map] at hr1 hr2
  obtain ⟨h1, _, rfl⟩ := hr1
  obtain ⟨h2, _, rfl⟩ := hr2
  have hb : h1 = h2 := hbase
  subst hb
  have hlt : totalValue hs + e1 < totalValue hs + e2 :=
    add_lt_add_left h12 (totalValue hs)
  constructor
  · intro hp
    have hp' : 0 < h1.target_percent / 100 := by positivity
    have hmul := mul_lt_mul_of_pos_left hlt hp'
    exact ⟨hmul, sub_lt_sub_right hmul h1.current_value⟩
  · intro hp
    have hp' : h1.target_percent = 0 := hp
    constructor <;> simp [hp']

/-- Witness for C8 at the spec's concrete scenarios 2 and 3 (`e1 = 0`,
`e2 = 1000`, holding "A" with `target_percent = 70`). -/
theorem C8_monotonicity_witness :
    (⟨⟨"A", none, 70, 300⟩, 700, 400⟩ : SimRow).ideal_value
      < (⟨⟨"A", none, 70, 300⟩, 1400, 1100⟩ : SimRow).ideal_value ∧
    (⟨⟨"A", none, 70, 300⟩, 700, 400⟩ : SimRow).aporte_ideal
      < (⟨⟨"A", none, 70, 300⟩, 1400, 1100⟩ : SimRow).aporte_ideal :=
  (C8_monotonicity [⟨"A", none, 70, 300⟩, ⟨"B", none, 30, 700⟩] 0 1000
      (by norm_num)
      ⟨⟨"A", none, 70, 300⟩, 700, 400⟩
      (by norm_num [simulate_rebalance_assets, totalValue])
      ⟨⟨"A", none, 70, 300⟩, 1400, 1100⟩
      (by norm_num [simulate_rebalance_assets, totalValue])
      rfl).1 (by norm_num)

/-- C9: Purity of the calculation functions.  Equal snapshots give equal
results for `calcular_alocacao`, `sugerir_rebalance` and
`simulate_rebalance_assets` (no hidden state enters the computation), and
re-running the Allocation Calculator on the holdings carried by its own
output reproduces the output — calling it twice yields identical results. -/
theorem C9_purity (hs hs2 : List Holding) (e : ℚ) (h : hs = hs2) :
    calcular_alocacao hs = calcular_alocacao hs2 ∧
    sugerir_rebalance hs = sugerir_rebalance hs2 ∧
    simulate_rebalance_assets hs e = simulate_rebalance_assets hs2 e ∧
    calcular_alocacao ((calcular_alocacao hs).map (·.base))
      = calcular_alocacao hs := by
  subst h
  exact ⟨rfl, rfl, rfl, by rw [calcular_alocacao_base]⟩

/-- Witness for C9 on a concrete snapshot. -/
theorem C9_purity_witness :
    calcular_alocacao
        ((calcular_alocacao [⟨"A", none, 50, 500⟩]).map (·.base))
      = calcular_alocacao [⟨"A", none, 50, 500⟩] :=
  (C9_purity [⟨"A", none, 50, 500⟩] [⟨"A", none, 50, 500⟩] 0 rfl).2.2.2

/-- C10: Delta conservation.  The `diff` values of `sugerir_rebalance` sum
to `(sum(target_percent) / 100 - 1) * total`; when the target percents sum
to exactly 100, the diffs sum to 0 and the `aporte_ideal` values of
`simulate_rebalance_assets` sum to exactly the extra contribution amount. -/
theorem C10_delta_conservation (hs : List Holding) :
    ((sugerir_rebalance hs).map (·.diff)).sum
      = ((hs.map (·.target_percent)).sum / 100 - 1) * totalValue hs ∧
    ((hs.map (·.target_percent)).sum = 100 →
      ((sugerir_rebalance hs).map (·.diff)).sum = 0 ∧
      ∀ e : ℚ,
        (((simulate_rebalance_assets hs e).1).map (·.aporte_ideal)).sum
          = e) := by
  have key : ∀ t : ℚ,
      (hs.map (fun h => h.target_percent / 100 * t - h.current_value)).sum
        = (hs.map (·.target_percent)).sum / 100 * t - totalValue hs := by
    intro t
    rw [sum_map_sub_eq hs (fun h => h.target_percent / 100 * t)
      (fun h => h.current_value)]
    rw [sum_map_percent_mul hs (fun h => h.target_percent) t]
    rfl
  have hsug : ((sugerir_rebalance hs).map (·.diff)).sum
      = (hs.map (·.target_percent)).sum / 100 * totalValue hs
          - totalValue hs := by
    have hm : (sugerir_rebalance hs).map (·.diff)
        = hs.map (fun h =>
            h.target_percent / 100 * totalValue hs - h.current_value) := by
      simp only [sugerir_rebalance, List.map_map]
      rfl
    rw [hm, key]
  constructor
  · rw [hsug]
    ring
  · intro hP
    constructor
    · rw [hsug, hP, div_self (by norm_num : (100:ℚ) ≠ 0)]
      ring
    · intro e
      have hm : ((simulate_rebalance_assets hs e).1).map (·.aporte_ideal)
          = hs.map (fun h =>
              h.target_percent / 100 * (totalValue hs + e)
                - h.current_value) := by
        simp only [simulate_rebalance_assets, List.map_map]
        rfl
      rw [hm, key, hP, div_self (by norm_num : (100:ℚ) ≠ 0)]
      ring

/-- Witness for C10 at the spec's concrete scenarios 2 and 3 (target
percents 70 + 30 = 100). -/
theorem C10_delta_conservation_witness :
    ((sugerir_rebalance
        [⟨"A", none, 70, 300⟩, ⟨"B", none, 30, 700⟩]).map (·.diff)).sum
      = 0 ∧
    (((simulate_rebalance_assets
        [⟨"A", none, 70, 300⟩, ⟨"B", none, 30, 700⟩] 1000).1).map
        (·.aporte_ideal)).sum = 1000 :=
  ⟨((C10_delta_conservation
      [⟨"A", none, 70, 300⟩, ⟨"B", none, 30, 700⟩]).2 (by norm_num)).1,
   ((C10_delta_conservation
      [⟨"A", none, 70, 300⟩, ⟨"B", none, 30, 700⟩]).2 (by norm_num)).2 1000⟩
